import Mathlib

/-!
Shallow embedding of `adb.py` (repository Carey8175/python-adb-ocr).

The module has one class `AdbOCR` plus two dataclasses `BoundingBox` and
`OcrResult`.  Effects (ADB shell calls, the OCR engine, socket enumeration,
the random generator) are modelled as explicit parameters; the stored device
handle is an `Option Device`; functions that can raise return `Except`.
Python truthiness on optional integers is modelled by `pyTruthy`.
-/

namespace AdbOcr

/-- The rectangle dataclass `BoundingBox` of adb.py: top-left corner plus
width and height, all integers. -/
structure BoundingBox where
  x : Int
  y : Int
  width : Int
  height : Int
deriving Repr, DecidableEq

/-- `BoundingBox.get_middle_coordinate`: the centre point, computed with
Python floor division `//` (hence `Int.fdiv`). -/
def BoundingBox.get_middle_coordinate (b : BoundingBox) : Int × Int :=
  (b.x + b.width.fdiv 2, b.y + b.height.fdiv 2)

/-- The dataclass `OcrResult`: a `BoundingBox` plus the recognized text. -/
structure OcrResult extends BoundingBox where
  text : String
deriving Repr, DecidableEq

/-- One detection as returned by the OCR engine for one text region:
`res[0]` is the four-corner polygon (index 0 the top-left corner, index 2
the bottom-right corner), `res[1]` the pair (recognized text, confidence).
Engine confidences are modelled as rationals. -/
structure Detection where
  topLeft : Int × Int
  topRight : Int × Int
  bottomRight : Int × Int
  bottomLeft : Int × Int
  text : String
  conf : ℚ
deriving Repr, DecidableEq

/-- The `OcrResult` built for one detection in the loop of
`get_screen_text`: `x = res[0][0][0]`, `y = res[0][0][1]`,
`width = res[0][2][0] - res[0][0][0]`, `height = res[0][2][1] - res[0][0][1]`,
`text = res[1][0]`. -/
def toOcrResult (d : Detection) : OcrResult :=
  { x := d.topLeft.1
    y := d.topLeft.2
    width := d.bottomRight.1 - d.topLeft.1
    height := d.bottomRight.2 - d.topLeft.2
    text := d.text }

/-- The `for res in result` loop of `get_screen_text`: an `OcrResult` is
appended for a detection exactly when `res[1][1] > confidence` (strict). -/
def ocr_results_of (confidence : ℚ) (page : List Detection) : List OcrResult :=
  page.filterMap fun res =>
    if res.conf > confidence then some (toOcrResult res) else none

/-- `AdbOCR.get_screen_text`, with the effects made explicit.
`connected` is the value of `self.is_connected()`; `engine` is the value
returned by `self.ocr_engine.ocr(screen, cls=False)` — a list of pages,
each page a list of detections (the code only looks at page `result[0]`,
after the two falsy checks `not result` and `not result[0]`).
Returns `none` where the Python code returns `None`. -/
def get_screen_text (connected : Bool) (engine : List (List Detection))
    (confidence : ℚ) : Option (List OcrResult) :=
  if !connected then
    none
  else
    match engine with
    | [] => none
    | page :: _ =>
      match page with
      | [] => none
      | _ =>
        let ocr_results : List OcrResult := ocr_results_of confidence page
        if ocr_results.isEmpty then none else some ocr_results

/-- Python truthiness of an optional integer (the `not duration` test in
`swipe`): `None` and `0` are falsy, every other integer is truthy. -/
def pyTruthy : Option Int → Bool
  | none => false
  | some d => d != 0

/-- A device handle `AdbDeviceTcpAsync(host=host, port=port, ...)` as stored
in `self._device`. -/
structure Device where
  host : String
  port : Nat
deriving Repr, DecidableEq

/-- The mutable state of one `AdbOCR` instance: the optional device handle
`self._device` and the optional OCR engine `self.ocr_engine` (recorded by
the language it was initialized with). -/
structure SessionState where
  device : Option Device
  ocr_engine : Option String
deriving Repr, DecidableEq

/-- `AdbOCR.is_connected`: `self._device and self._device.available`.
`avail` models the transport property `available` of a handle. -/
def is_connected (avail : Device → Bool) : Option Device → Bool
  | none => false
  | some d => avail d

/-- One entry of `psutil.net_connections("tcp4")`: its local port
`conn.laddr.port` and its status string `conn.status`. -/
structure Conn where
  port : Nat
  status : String
deriving Repr, DecidableEq

/-- Outcome of one probe
`AdbDeviceTcp("localhost", port, 0.5).connect(read_timeout_s=0.5)`:
the call returns a boolean, or raises some exception (`exc`). -/
inductive ProbeResult where
  | ok (b : Bool)
  | exc
deriving Repr, DecidableEq

/-- The candidate filter of `_scan_local_devices`:
`conn.laddr.port >= 5555 and conn.status == "LISTEN"`. -/
def isCandidate (c : Conn) : Bool :=
  decide (5555 ≤ c.port) && c.status == "LISTEN"

/-- The `for conn in connections` loop of `_scan_local_devices`: probe each
candidate in order; a truthy `connect` returns that port, while a falsy
`connect` or any raised exception moves on to the next candidate.  The
second component is the trace of ports a probe was attempted against. -/
def scanLoop (probe : Nat → ProbeResult) : List Conn → Option Nat × List Nat
  | [] => (none, [])
  | c :: rest =>
    match probe c.port with
    | .ok true => (some c.port, [c.port])
    | _ =>
      let r := scanLoop probe rest
      (r.1, c.port :: r.2)

/-- `AdbOCR._scan_local_devices` with its effects explicit: `enum` is the
result of `psutil.net_connections("tcp4")`, where `Except.error` models the
`psutil.AccessDenied` exception (caught: the scan then returns `None`);
candidates are the connections with local port `>= 5555` and status
`"LISTEN"`, kept in enumeration order.  Returns the found port (or `none`)
together with the trace of probed ports. -/
def scan_local_devices (enum : Except Unit (List Conn))
    (probe : Nat → ProbeResult) : Option Nat × List Nat :=
  match enum with
  | .error _ => (none, [])
  | .ok conns => scanLoop probe (conns.filter isCandidate)

/-- Outcome of one handshake `await device.connect()`: the call returns a
boolean, or raises `OSError` (`oserr`, which the source catches). -/
inductive ConnectResult where
  | ok (b : Bool)
  | oserr
deriving Repr, DecidableEq

/-- The environment `_connect_device` runs in: the outcome of a handshake
to a given `(host, port)`, plus the socket-enumeration snapshot and the
probe outcomes a scan would see. -/
structure ConnectEnv where
  handshake : String → Nat → ConnectResult
  enum : Except Unit (List Conn)
  probe : Nat → ProbeResult

/-- `AdbOCR._connect_device`, recursion bounded by `fuel` (the recursive
call passes `scan_if_fail := False`, so it cannot recurse again and depth 2
is exact).  Returns the new session state together with the trace of
handshake attempts `(host, port)` issued via `device.connect()`.  Notes on
the source: the guard `if self._device is not None: return` short-circuits
first; a falsy `connect()` and a caught `OSError` both fall through to the
scan block; the Python function returns `None`, so the `if connection:`
test after the recursive call is never truthy and the state update on
success happens inside the recursive call itself; `if port_found:` is
Python truthiness, falsy for `None` and for port `0`. -/
def connect_device (env : ConnectEnv) :
    Nat → SessionState → Nat → String → Bool → SessionState × List (String × Nat)
  | 0, st, _, _, _ => (st, [])
  | fuel + 1, st, port, host, scan_if_fail =>
    if st.device.isSome then (st, [])
    else
      let afterFail : SessionState × List (String × Nat) :=
        if host == "localhost" && scan_if_fail then
          match (scan_local_devices env.enum env.probe).1 with
          | some port_found =>
            if port_found == 0 then (st, [(host, port)])
            else
              let r := connect_device env fuel st port_found host false
              (r.1, (host, port) :: r.2)
          | none => (st, [(host, port)])
        else (st, [(host, port)])
      match env.handshake host port with
      | .ok true => ({ st with device := some ⟨host, port⟩ }, [(host, port)])
      | .ok false => afterFail
      | .oserr => afterFail

/-- `AdbOCR.load`: runs `_init_ocr_engine(language)` and
`_connect_device(port, host, scan_if_fail)` as two concurrent tasks that
write disjoint fields and are both awaited, so the joint effect equals
running both to completion. -/
def load (env : ConnectEnv) (st : SessionState) (port : Nat) (host : String)
    (scan_if_fail : Bool) (language : String) :
    SessionState × List (String × Nat) :=
  let r := connect_device env 2 st port host scan_if_fail
  ({ r.1 with ocr_engine := some language }, r.2)

/-- The adb shell command text `input swipe x1 y1 x2 y2 d`. -/
def input_swipe_cmd (x1 y1 x2 y2 d : Int) : String :=
  "input swipe " ++ toString x1 ++ " " ++ toString y1 ++ " " ++ toString x2
    ++ " " ++ toString y2 ++ " " ++ toString d

/-- The duration interpolated by `AdbOCR.swipe`:
`self._random.randint(60, 120) if not duration else duration`, where `r`
stands for the value the call `randint(60, 120)` draws. -/
def swipe_duration (duration : Option Int) (r : Int) : Int :=
  if pyTruthy duration then duration.getD 0 else r

/-- The shell command issued by `AdbOCR.swipe(x1, y1, x2, y2, duration)`,
with `r` the value `randint(60, 120)` would draw. -/
def swipe_cmd (x1 y1 x2 y2 : Int) (duration : Option Int) (r : Int) : String :=
  input_swipe_cmd x1 y1 x2 y2 (swipe_duration duration r)

/-- The shell command issued by `AdbOCR.click(x, y)`, with `r` the value
drawn by `randint(60, 120)`. -/
def click_cmd (x y : Int) (r : Int) : String :=
  input_swipe_cmd x y x y r

/-- The fixed shell command issued by `get_screen_size`. -/
def size_cmd : String := "wm size | awk \x27END\x7bprint $3\x7d\x27"

/-- The fixed shell command issued by `get_screen_density`. -/
def density_cmd : String := "wm density | awk \x27END\x7bprint $3\x7d\x27"

/-- The fixed shell command issued by `get_memory`. -/
def memory_cmd : String := "cat /proc/meminfo | grep MemTotal"

/-- The value `get_screen_size` evaluates to: the not-connected branch
returns the tuple `(0, 0)`, while the connected branch returns a string
(the shell output with newlines removed) — the source returns these two
different shapes despite its `tuple[int, int]` annotation. -/
inductive ScreenSizeValue where
  | pair (w h : Int)
  | raw (s : String)
deriving Repr, DecidableEq

/-- Python `shell_output.replace("\n", "")`: replacing every occurrence of
the one-character pattern `"\n"` by the empty string removes every newline
character. -/
def removeNewlines (s : String) : String :=
  String.mk (s.data.filter fun c => c != '\n')

/-- `AdbOCR.get_screen_size`: if `is_connected()` is falsy, return `(0, 0)`
without touching the shell; otherwise run the fixed command and return its
output with `"\n"` removed.  The second component is the list of shell
commands issued. -/
def get_screen_size (avail : Device → Bool) (device : Option Device)
    (shell : String → String) : ScreenSizeValue × List String :=
  if !is_connected avail device then (.pair 0 0, [])
  else (.raw (removeNewlines (shell size_cmd)), [size_cmd])

/-- `AdbOCR.get_screen_density`: no connection check at all;
`self._device.shell(...)` on a `None` device raises (`Except.error`, the
`AttributeError` propagating to the caller), otherwise the command output
with `"\n"` removed is returned.  The second component is the list of
shell commands issued. -/
def get_screen_density (device : Option Device) (shell : String → String) :
    Except Unit String × List String :=
  match device with
  | none => (.error (), [])
  | some _ => (.ok (removeNewlines (shell density_cmd)), [density_cmd])

/-- Helper for `pySplit`: walk the characters, `cur` holding the current
token in reverse; whitespace closes the current token (if nonempty), so
runs of whitespace produce no empty tokens, matching Python `str.split()`
with no argument. -/
def wsSplitAux : List Char → List Char → List (List Char)
  | [], cur => if cur.isEmpty then [] else [cur.reverse]
  | c :: cs, cur =>
    if c.isWhitespace then
      if cur.isEmpty then wsSplitAux cs []
      else cur.reverse :: wsSplitAux cs []
    else wsSplitAux cs (c :: cur)

/-- Python `str.split()` with no argument: split on whitespace runs,
dropping empty pieces. -/
def pySplit (s : String) : List String :=
  (wsSplitAux s.data []).map String.mk

/-- Decimal digit run parse used by `pyInt`. -/
def natOfDigits (cs : List Char) : Option Nat :=
  if cs.isEmpty then none
  else if cs.all (fun c => c.isDigit) then
    some (cs.foldl (fun n c => n * 10 + (c.toNat - 48)) 0)
  else none

/-- Python `int(t)` on a plain token: optional leading minus sign followed
by decimal digits; anything else raises (`none`). -/
def pyInt (t : String) : Option Int :=
  match t.data with
  | '-' :: rest => (natOfDigits rest).map fun n => -(n : Int)
  | cs => (natOfDigits cs).map fun n => (n : Int)

/-- The parse `AdbOCR.get_memory` performs on the shell output:
`int(shell_output.split()[1]) // 1024`.  `none` models the exception
raised when the token is missing or not an integer literal. -/
def get_memory_parse (shell_output : String) : Option Int :=
  (((pySplit shell_output).get? 1).bind pyInt).map fun n => n.fdiv 1024

/-- A demonstration detection reported at confidence exactly 0.85, with
top-left corner `(10, 20)` and bottom-right corner `(50, 80)`. -/
def det085 : Detection :=
  { topLeft := (10, 20), topRight := (50, 20), bottomRight := (50, 80),
    bottomLeft := (10, 80), text := "demo85", conf := mkRat 85 100 }

/-- A demonstration detection reported at confidence 0.86, with top-left
corner `(10, 20)` and bottom-right corner `(50, 80)`. -/
def det086 : Detection :=
  { topLeft := (10, 20), topRight := (50, 20), bottomRight := (50, 80),
    bottomLeft := (10, 80), text := "demo86", conf := mkRat 86 100 }

lemma ocr_results_of_eq_map_filter (c : ℚ) (page : List Detection) :
    ocr_results_of c page
      = (page.filter fun d => decide (c < d.conf)).map toOcrResult := by
  induction page with
  | nil => rfl
  | cons a as ih =>
    simp only [ocr_results_of, List.filterMap_cons, List.filter_cons] at ih ⊢
    by_cases h : c < a.conf
    · simp [gt_iff_lt, h, ih]
    · simp [gt_iff_lt, h, ih]

lemma mem_ocr_results_of (c : ℚ) (page : List Detection) (r : OcrResult) :
    r ∈ ocr_results_of c page ↔ ∃ d ∈ page, c < d.conf ∧ r = toOcrResult d := by
  simp only [ocr_results_of, List.mem_filterMap]
  constructor
  · rintro ⟨d, hd, hf⟩
    by_cases h : c < d.conf
    · refine ⟨d, hd, h, ?_⟩
      simp only [gt_iff_lt, h, if_true, Option.some.injEq] at hf
      exact hf.symm
    · simp [gt_iff_lt, h] at hf
  · rintro ⟨d, hd, h, rfl⟩
    exact ⟨d, hd, by simp [gt_iff_lt, h]⟩

lemma ocr_results_of_eq_nil_iff (c : ℚ) (page : List Detection) :
    ocr_results_of c page = [] ↔ ∀ d ∈ page, d.conf ≤ c := by
  rw [ocr_results_of_eq_map_filter]
  simp [List.map_eq_nil_iff, List.filter_eq_nil_iff, not_lt]

lemma length_ocr_results_of (c : ℚ) (page : List Detection) :
    (ocr_results_of c page).length
      = page.countP fun d => decide (c < d.conf) := by
  rw [ocr_results_of_eq_map_filter, List.length_map, List.countP_eq_length_filter]

lemma get_screen_text_false (engine : List (List Detection)) (c : ℚ) :
    get_screen_text false engine c = none := rfl

lemma get_screen_text_nil (c : ℚ) : get_screen_text true [] c = none := rfl

lemma get_screen_text_nil_page (rest : List (List Detection)) (c : ℚ) :
    get_screen_text true ([] :: rest) c = none := rfl

lemma get_screen_text_cons (a : Detection) (page : List Detection)
    (rest : List (List Detection)) (c : ℚ) :
    get_screen_text true ((a :: page) :: rest) c
      = if (ocr_results_of c (a :: page)).isEmpty then none
        else some (ocr_results_of c (a :: page)) := rfl

lemma get_screen_text_cons_eq_none_iff (a : Detection) (as : List Detection)
    (rest : List (List Detection)) (c : ℚ) :
    get_screen_text true ((a :: as) :: rest) c = none
      ↔ ∀ d ∈ a :: as, d.conf ≤ c := by
  rw [get_screen_text_cons]
  by_cases h : (ocr_results_of c (a :: as)).isEmpty = true
  · rw [if_pos h]
    exact iff_of_true rfl
      ((ocr_results_of_eq_nil_iff c (a :: as)).mp (List.isEmpty_iff.mp h))
  · rw [if_neg h]
    have h' : ocr_results_of c (a :: as) ≠ [] := fun hc => h (by simp [hc])
    constructor
    · intro hc
      simp at hc
    · intro hc
      exact absurd ((ocr_results_of_eq_nil_iff c (a :: as)).mpr hc) h'

lemma get_screen_text_some_eq (page : List Detection)
    (rest : List (List Detection)) (c : ℚ) (l : List OcrResult)
    (hl : get_screen_text true (page :: rest) c = some l) :
    l = ocr_results_of c page := by
  cases page with
  | nil => simp [get_screen_text_nil_page] at hl
  | cons a as =>
    rw [get_screen_text_cons] at hl
    by_cases h : (ocr_results_of c (a :: as)).isEmpty
    · simp [h] at hl
    · simp only [h, if_false, Bool.false_eq_true, Option.some.injEq] at hl
      exact hl.symm

end AdbOcr

namespace AdbOcr

/-- C1: when `get_screen_text` returns a list for a connected session, it
holds an `OcrResult` for a detection of the first result page exactly when
that detection's engine-reported confidence strictly exceeds the
`confidence` parameter: every strictly-exceeding detection contributes its
result, every emitted result comes from a strictly-exceeding detection,
and the number of results equals the number of strictly-exceeding
detections (so a detection at exactly the threshold is never counted). -/
theorem get_screen_text_confidence_filter (page : List Detection)
    (rest : List (List Detection)) (c : ℚ) (l : List OcrResult)
    (hl : get_screen_text true (page :: rest) c = some l) :
    (∀ d ∈ page, c < d.conf → toOcrResult d ∈ l) ∧
    (∀ r ∈ l, ∃ d ∈ page, c < d.conf ∧ r = toOcrResult d) ∧
    l.length = page.countP fun d => decide (c < d.conf) := by
  rw [get_screen_text_some_eq page rest c l hl]
  refine ⟨?_, ?_, length_ocr_results_of c page⟩
  · intro d hd hc
    exact (mem_ocr_results_of c page _).mpr ⟨d, hd, hc, rfl⟩
  · intro r hr
    exact (mem_ocr_results_of c page r).mp hr

/-- Witness for C1 at the default threshold 0.85: with one detection at
confidence exactly 0.85 and one at 0.86, the 0.86 detection is included
and the result count is 1 (the 0.85 detection is excluded). -/
theorem get_screen_text_confidence_filter_witness :
    toOcrResult det086 ∈ [toOcrResult det086] ∧
    ([toOcrResult det086] : List OcrResult).length
      = [det085, det086].countP fun d => decide (mkRat 85 100 < d.conf) := by
  have h := get_screen_text_confidence_filter [det085, det086] [] (mkRat 85 100)
    [toOcrResult det086] (by decide)
  exact ⟨h.1 det086 (by decide) (by decide), h.2.2⟩

/-- C2: `get_screen_text` returns `none` exactly when the session is not
connected, or the engine reports zero detections (no result page, or an
empty first page), or every detection of the first page is at or below the
confidence threshold; in every other case it returns a non-empty list. -/
theorem get_screen_text_none_iff (connected : Bool)
    (engine : List (List Detection)) (c : ℚ) :
    (get_screen_text connected engine c = none ↔
      connected = false ∨ engine.head?.getD [] = []
        ∨ ∀ d ∈ engine.head?.getD [], d.conf ≤ c) ∧
    ∀ l, get_screen_text connected engine c = some l → l ≠ [] := by
  cases connected with
  | false => simp [get_screen_text_false]
  | true =>
    cases engine with
    | nil => simp [get_screen_text_nil]
    | cons page rest =>
      cases page with
      | nil => simp [get_screen_text_nil_page]
      | cons a as =>
        constructor
        · simpa using get_screen_text_cons_eq_none_iff a as rest c
        · intro l hl hnil
          have heq := get_screen_text_some_eq (a :: as) rest c l hl
          rw [hnil] at heq
          have hnone : get_screen_text true ((a :: as) :: rest) c = none := by
            exact (get_screen_text_cons_eq_none_iff a as rest c).mpr
              ((ocr_results_of_eq_nil_iff c (a :: as)).mp heq.symm)
          rw [hnone] at hl
          exact Option.noConfusion hl

/-- Witness for C2 at concrete inputs: a session that is not connected
yields `none`, and a connected session with one detection strictly above
threshold yields a non-empty list. -/
theorem get_screen_text_none_iff_witness :
    (get_screen_text false [[det086]] (mkRat 85 100) = none ↔
      false = false ∨ ([[det086]] : List (List Detection)).head?.getD [] = []
        ∨ ∀ d ∈ ([[det086]] : List (List Detection)).head?.getD [],
            d.conf ≤ mkRat 85 100) ∧
    ([toOcrResult det086] : List OcrResult) ≠ [] :=
  ⟨(get_screen_text_none_iff false [[det086]] (mkRat 85 100)).1,
   (get_screen_text_none_iff true [[det086]] (mkRat 85 100)).2
     [toOcrResult det086] (by decide)⟩

/-- C8: every `OcrResult` produced by `get_screen_text` takes its `x` and
`y` from some detection's top-left polygon corner, its width from
`bottomRight.x - topLeft.x`, its height from `bottomRight.y - topLeft.y`
and its text from that detection; in particular top-left `(10, 20)` with
bottom-right `(50, 80)` yields the box `x=10, y=20, width=40, height=60`,
whose centre under floor division is `(30, 50)`. -/
theorem get_screen_text_box_geometry :
    (∀ (page : List Detection) (rest : List (List Detection))
      (c : ℚ) (l : List OcrResult),
      get_screen_text true (page :: rest) c = some l →
      ∀ r ∈ l, ∃ d ∈ page,
        r.x = d.topLeft.1 ∧ r.y = d.topLeft.2 ∧
        r.width = d.bottomRight.1 - d.topLeft.1 ∧
        r.height = d.bottomRight.2 - d.topLeft.2 ∧ r.text = d.text) ∧
    get_screen_text true [[det086]] (mkRat 85 100)
      = some [{ x := 10, y := 20, width := 40, height := 60, text := "demo86" }] ∧
    BoundingBox.get_middle_coordinate { x := 10, y := 20, width := 40, height := 60 }
      = (30, 50) := by
  refine ⟨?_, by decide, by decide⟩
  intro page rest c l hl r hr
  rw [get_screen_text_some_eq page rest c l hl] at hr
  obtain ⟨d, hd, _, rfl⟩ := (mem_ocr_results_of c page r).mp hr
  exact ⟨d, hd, rfl, rfl, rfl, rfl, rfl⟩

/-- Witness for C8: the geometry conjunct applied to the concrete page
holding the detection with corners `(10, 20)` and `(50, 80)`. -/
theorem get_screen_text_box_geometry_witness :
    ∃ d ∈ [det086], (toOcrResult det086).x = d.topLeft.1 ∧
      (toOcrResult det086).y = d.topLeft.2 ∧
      (toOcrResult det086).width = d.bottomRight.1 - d.topLeft.1 ∧
      (toOcrResult det086).height = d.bottomRight.2 - d.topLeft.2 ∧
      (toOcrResult det086).text = d.text :=
  get_screen_text_box_geometry.1 [det086] [] (mkRat 85 100)
    [toOcrResult det086] (by decide) (toOcrResult det086) (by decide)

lemma scanLoop_fst_eq_find (probe : Nat → ProbeResult) (cs : List Conn) :
    (scanLoop probe cs).1
      = (cs.find? fun co => decide (probe co.port = .ok true)).map Conn.port := by
  induction cs with
  | nil => rfl
  | cons c rest ih =>
    cases hp : probe c.port with
    | ok b =>
      cases b with
      | true => simp [scanLoop, List.find?_cons, hp]
      | false => simp [scanLoop, List.find?_cons, hp, ih]
    | exc => simp [scanLoop, List.find?_cons, hp, ih]

lemma scanLoop_trace_subset (probe : Nat → ProbeResult) (cs : List Conn) :
    ∀ p ∈ (scanLoop probe cs).2, ∃ co ∈ cs, co.port = p := by
  induction cs with
  | nil =>
    intro p hp
    simp [scanLoop] at hp
  | cons c rest ih =>
    intro p hp
    cases hq : probe c.port with
    | ok b =>
      cases b with
      | true =>
        simp [scanLoop, hq] at hp
        exact ⟨c, by simp, hp.symm⟩
      | false =>
        simp [scanLoop, hq] at hp
        rcases hp with hp | hp
        · exact ⟨c, by simp, hp.symm⟩
        · obtain ⟨co, hco, hcp⟩ := ih p hp
          exact ⟨co, by simp [hco], hcp⟩
    | exc =>
      simp [scanLoop, hq] at hp
      rcases hp with hp | hp
      · exact ⟨c, by simp, hp.symm⟩
      · obtain ⟨co, hco, hcp⟩ := ih p hp
        exact ⟨co, by simp [hco], hcp⟩

end AdbOcr

namespace AdbOcr

/-- Counterexample for C3: a caller-supplied duration of `0` is not used
verbatim — the source tests `not duration` (Python truthiness), so with
the random draw 60 the issued command carries 60, not the supplied 0. -/
theorem swipe_zero_duration_counterexample :
    swipe_cmd 1 2 3 4 (some 0) 60 = input_swipe_cmd 1 2 3 4 60 ∧
    swipe_cmd 1 2 3 4 (some 0) 60 ≠ input_swipe_cmd 1 2 3 4 0 :=
  ⟨rfl, by decide⟩

/-- C3 (amended): a supplied duration is used verbatim exactly when it is
truthy (nonzero); when the duration is `None` or `0`, the value drawn by
`randint(60, 120)` is used instead. -/
theorem swipe_duration_amended (x1 y1 x2 y2 d r : Int) :
    (d ≠ 0 → swipe_cmd x1 y1 x2 y2 (some d) r = input_swipe_cmd x1 y1 x2 y2 d) ∧
    swipe_cmd x1 y1 x2 y2 none r = input_swipe_cmd x1 y1 x2 y2 r ∧
    swipe_cmd x1 y1 x2 y2 (some 0) r = input_swipe_cmd x1 y1 x2 y2 r := by
  refine ⟨fun hd => ?_, rfl, rfl⟩
  simp [swipe_cmd, swipe_duration, pyTruthy, hd]

/-- Witness for C3 (amended): the nonzero supplied duration 500 is used
verbatim even though the random draw was 60. -/
theorem swipe_duration_amended_witness :
    swipe_cmd 9 9 9 9 (some 500) 60 = input_swipe_cmd 9 9 9 9 500 :=
  (swipe_duration_amended 9 9 9 9 500 60).1 (by decide)

/-- C7: the command issued by `click(x, y)` equals, for some duration in
`[60, 120]` (namely its own `randint(60, 120)` draw `r`), the command
issued by `swipe(x, y, x, y, duration)` — whatever draw `r2` the swipe
call itself would have made. -/
theorem click_eq_swipe_for_some_duration (x y r : Int)
    (h60 : 60 ≤ r) (h120 : r ≤ 120) :
    ∃ d, 60 ≤ d ∧ d ≤ 120 ∧
      ∀ r2 : Int, click_cmd x y r = swipe_cmd x y x y (some d) r2 := by
  refine ⟨r, h60, h120, fun r2 => ?_⟩
  have hr : r ≠ 0 := by omega
  simp [click_cmd, swipe_cmd, swipe_duration, pyTruthy, hr]

/-- Witness for C7 at `click(5, 6)` with draw 77. -/
theorem click_eq_swipe_for_some_duration_witness :
    ∃ d, 60 ≤ d ∧ d ≤ 120 ∧
      ∀ r2 : Int, click_cmd 5 6 77 = swipe_cmd 5 6 5 6 (some d) r2 :=
  click_eq_swipe_for_some_duration 5 6 77 (by decide) (by decide)

/-- C4: once the device handle is set, `_connect_device` returns through
its `self._device is not None` guard: the session state is returned
unchanged (the handle neither cleared nor replaced), no handshake attempt
is issued, and a later `load` only reinitializes the OCR engine. -/
theorem connect_device_handle_stable (env : ConnectEnv) (st : SessionState)
    (dev : Device) (hd : st.device = some dev) (fuel port : Nat)
    (host language : String) (scan_if_fail : Bool) :
    connect_device env fuel st port host scan_if_fail = (st, []) ∧
    (load env st port host scan_if_fail language).1.device = some dev ∧
    (load env st port host scan_if_fail language).2 = [] := by
  have key : ∀ f, connect_device env f st port host scan_if_fail = (st, []) := by
    intro f
    cases f with
    | zero => rfl
    | succ n => simp [connect_device, hd]
  have key2 : connect_device env 2 st port host scan_if_fail = (st, []) := key 2
  exact ⟨key fuel, by simp [load, key2, hd], by simp [load, key2]⟩

/-- Witness for C4: a session already holding the handle for port 5555 is
untouched by a further connection attempt towards port 5556. -/
theorem connect_device_handle_stable_witness :
    connect_device ⟨fun _ _ => .oserr, .error (), fun _ => .exc⟩ 2
        ⟨some ⟨"localhost", 5555⟩, none⟩ 5556 "localhost" true
      = (⟨some ⟨"localhost", 5555⟩, none⟩, []) :=
  (connect_device_handle_stable ⟨fun _ _ => .oserr, .error (), fun _ => .exc⟩
    ⟨some ⟨"localhost", 5555⟩, none⟩ ⟨"localhost", 5555⟩ rfl 2 5556
    "localhost" "ch" true).1

/-- C5: every port the scan probes belongs to an enumerated connection
with local port at least 5555 and status LISTEN (no port below 5555 is
ever probed), and the scan returns the port of the first candidate, in
enumeration order, whose probe reports success. -/
theorem scan_probes_policy (conns : List Conn) (probe : Nat → ProbeResult) :
    (∀ p ∈ (scan_local_devices (.ok conns) probe).2,
      5555 ≤ p ∧ ∃ co ∈ conns, co.port = p ∧ co.status = "LISTEN") ∧
    (scan_local_devices (.ok conns) probe).1
      = ((conns.filter isCandidate).find? fun co =>
          decide (probe co.port = .ok true)).map Conn.port := by
  have hsc : scan_local_devices (.ok conns) probe
      = scanLoop probe (conns.filter isCandidate) := rfl
  constructor
  · intro p hp
    rw [hsc] at hp
    obtain ⟨co, hco, hcp⟩ := scanLoop_trace_subset probe (conns.filter isCandidate) p hp
    have hmem := List.mem_filter.mp hco
    have hcand := hmem.2
    simp only [isCandidate, Bool.and_eq_true, decide_eq_true_eq, beq_iff_eq] at hcand
    exact ⟨hcp ▸ hcand.1, co, hmem.1, hcp, hcand.2⟩
  · rw [hsc]
    exact scanLoop_fst_eq_find probe (conns.filter isCandidate)

/-- Witness for C5: a single LISTEN connection on port 5555 whose probe
succeeds is both probed and returned. -/
theorem scan_probes_policy_witness :
    5555 ≤ 5555 ∧ ∃ co ∈ [(⟨5555, "LISTEN"⟩ : Conn)],
      co.port = 5555 ∧ co.status = "LISTEN" :=
  (scan_probes_policy [⟨5555, "LISTEN"⟩] fun _ => .ok true).1 5555 (by decide)

/-- C6: the scan is a total function of its inputs (no probe exception
reaches the caller): an `AccessDenied` enumeration yields no port and no
probe attempt; a probe that raises is recorded and skipped, scanning
continuing with the remaining candidates; if no candidate's probe succeeds
the scan yields no port; and a session entered unconnected stays
unconnected when the handshake fails and the scan finds nothing. -/
theorem scan_failure_policy :
    (∀ probe, scan_local_devices (.error ()) probe = (none, [])) ∧
    (∀ (probe : Nat → ProbeResult) (c : Conn) (rest : List Conn),
      probe c.port = .exc →
      (scanLoop probe (c :: rest)).1 = (scanLoop probe rest).1 ∧
      (scanLoop probe (c :: rest)).2 = c.port :: (scanLoop probe rest).2) ∧
    (∀ (conns : List Conn) (probe : Nat → ProbeResult),
      (∀ co ∈ conns, probe co.port ≠ .ok true) →
      (scan_local_devices (.ok conns) probe).1 = none) ∧
    (∀ (env : ConnectEnv) (ocr : Option String) (port : Nat) (host : String),
      env.handshake host port ≠ .ok true →
      (scan_local_devices env.enum env.probe).1 = none →
      (connect_device env 2 ⟨none, ocr⟩ port host true).1.device = none) := by
  refine ⟨fun _ => rfl, ?_, ?_, ?_⟩
  · intro probe c rest h
    constructor <;> simp [scanLoop, h]
  · intro conns probe h
    have hsc : scan_local_devices (.ok conns) probe
        = scanLoop probe (conns.filter isCandidate) := rfl
    rw [hsc, scanLoop_fst_eq_find, List.find?_eq_none.mpr, Option.map_none']
    intro co hco
    have := h co (List.mem_filter.mp hco).1
    simp [this]
  · intro env ocr port host h hscan
    cases hh : env.handshake host port with
    | ok b =>
      cases b with
      | true => exact absurd hh h
      | false =>
        by_cases hhost : (host == "localhost") = true <;>
          simp [connect_device, hh, hscan, hhost]
    | oserr =>
      by_cases hhost : (host == "localhost") = true <;>
        simp [connect_device, hh, hscan, hhost]

/-- Witness for C6 at concrete inputs: a raising probe on the single
candidate is skipped and recorded; the same probe makes the whole scan
yield no port; and a handshake failure with a denied enumeration leaves
the session unconnected. -/
theorem scan_failure_policy_witness :
    ((scanLoop (fun _ => .exc) [⟨5555, "LISTEN"⟩]).1
        = (scanLoop (fun _ => .exc) []).1 ∧
      (scanLoop (fun _ => .exc) [⟨5555, "LISTEN"⟩]).2
        = 5555 :: (scanLoop (fun _ => .exc) []).2) ∧
    (scan_local_devices (.ok [⟨5555, "LISTEN"⟩]) (fun _ => .exc)).1 = none ∧
    (connect_device ⟨fun _ _ => .oserr, .error (), fun _ => .exc⟩ 2
        ⟨none, none⟩ 5555 "localhost" true).1.device = none :=
  ⟨scan_failure_policy.2.1 (fun _ => .exc) ⟨5555, "LISTEN"⟩ [] rfl,
   scan_failure_policy.2.2.1 [⟨5555, "LISTEN"⟩] (fun _ => .exc) (by decide),
   scan_failure_policy.2.2.2 ⟨fun _ _ => .oserr, .error (), fun _ => .exc⟩
     none 5555 "localhost" (by decide) (by decide)⟩

/-- Evidence for C9: evaluated on the real shell outputs, `get_screen_size`
and `get_screen_density` return the newline-stripped output *string*
(contradicting their own `tuple[int, int]` and `int` annotations, which
the claim follows), while `get_memory` parses the second whitespace token
and floor-divides by 1024, so `"MemTotal:        16384 kB"` yields 16. -/
theorem shell_query_parsing :
    get_screen_size (fun _ => true) (some ⟨"localhost", 5555⟩)
        (fun _ => "1080x1920\n") = (.raw "1080x1920", [size_cmd]) ∧
    get_screen_density (some ⟨"localhost", 5555⟩) (fun _ => "440\n")
      = (.ok "440", [density_cmd]) ∧
    get_memory_parse "MemTotal:        16384 kB" = some 16 :=
  ⟨by decide, by rfl, by decide⟩

/-- C10: with no stored device handle, `get_screen_size` returns the
sentinel pair `(0, 0)` and issues no shell command, while
`get_screen_density` performs no connection check: on a missing handle it
raises (the error propagates), and with any handle present it issues its
shell command regardless of transport availability. -/
theorem no_handle_query_behaviour :
    (∀ (avail : Device → Bool) (shell : String → String),
      get_screen_size avail none shell = (.pair 0 0, [])) ∧
    (∀ shell : String → String, get_screen_density none shell = (.error (), [])) ∧
    (∀ (dev : Device) (shell : String → String),
      (get_screen_density (some dev) shell).2 = [density_cmd]) :=
  ⟨fun _ _ => rfl, fun _ => rfl, fun _ _ => rfl⟩

end AdbOcr
